import Mathlib

/-!
Verification of the async-examples demonstration program (src/main.rs).

The program builds futures with the `futures` crate (version 0.3) and drives
them with `block_on`.  Every future the program constructs completes on its
very first poll, so a single driver step decides every combinator; we embed
futures as an inductive datatype of deferred computations and `block_on` as
the interpreter that runs one future tree to completion.

The outcome of driving a future is either a value or an unrecoverable fault
(a Rust panic); a panic aborts the calling context and is never converted
into a typed `Err` result, so it is a separate channel from `Except`.

Machine integers: `u64` arithmetic is modelled as `Nat` with an explicit
`% 2 ^ 64` where the source performs arithmetic (release-mode wrapping
semantics; in debug mode `n + 1` at `u64::MAX` would instead raise an
overflow panic — either way the mathematical `n + 1` is not produced there).
`u8` values are `Nat`s below 256; `checked_add` is checked against 255.
-/

/-- Modulus of the `u64` machine type. -/
def U64 : Nat := 2 ^ 64

/-- Result of driving a future to completion: a value, or an unrecoverable
fault (a Rust panic) carrying the panic message.  A fault propagates out of
the driver uncaught; it is distinct from a typed `Except.error`. -/
inductive Outcome (α : Type) : Type where
  | ok (a : α) : Outcome α
  | fault (msg : String) : Outcome α
deriving DecidableEq

/-- Sequencing of driven computations: a fault aborts the rest. -/
def Outcome.bind {α β : Type} : Outcome α → (α → Outcome β) → Outcome β
  | .ok a, k => k a
  | .fault m, _ => .fault m

instance : Monad Outcome where
  pure := Outcome.ok
  bind := Outcome.bind

/-- A lazy future, as constructed by the program: constructing a `Fut`
performs no work; work happens only when `blockOn` drives it.

* `ready a` — `futures::future::ready(a)`: completes with `a` on first poll.
* `lazyBody f` — the state machine of an `async fn` body: the body `f` runs
  when the future is first polled, producing a value or panicking.
* `mapF t f` — `t.map(f)` from `FutureExt`.
* `awaitThen t k` — an async block that awaits `t`, then continues as `k`.
* `joinF a b` — the `join!` macro over two futures: polls both, yields the
  pair of results once both are ready.
* `tryJoinF a b` — the `try_join!` macro: like `join!` but completes with
  the first `Err` encountered in poll order.
-/
inductive Fut : Type → Type 1 where
  | ready : {α : Type} → α → Fut α
  | lazyBody : {α : Type} → (Unit → Outcome α) → Fut α
  | mapF : {α β : Type} → Fut α → (α → β) → Fut β
  | awaitThen : {α β : Type} → Fut α → (α → Fut β) → Fut β
  | joinF : {α β : Type} → Fut α → Fut β → Fut (α × β)
  | tryJoinF : {ε α β : Type} → Fut (Except ε α) → Fut (Except ε β) →
      Fut (Except ε (α × β))

/-- `futures::executor::block_on`: run a future to completion on the current
thread and return its result; a panic raised inside the future propagates
out (the `fault` outcome).  All futures in this program are ready on their
first poll, so the poll loop is a single recursive evaluation. -/
def blockOn : {α : Type} → Fut α → Outcome α
  | _, .ready a => .ok a
  | _, .lazyBody f => f ()
  | _, .mapF t f =>
      match blockOn t with
      | .ok a => .ok (f a)
      | .fault m => .fault m
  | _, .awaitThen t k =>
      match blockOn t with
      | .ok a => blockOn (k a)
      | .fault m => .fault m
  | _, .joinF a b =>
      match blockOn a with
      | .fault m => .fault m
      | .ok x =>
          match blockOn b with
          | .fault m => .fault m
          | .ok y => .ok (x, y)
  | _, .tryJoinF a b =>
      match blockOn a with
      | .fault m => .fault m
      | .ok (.error e) => .ok (.error e)
      | .ok (.ok x) =>
          match blockOn b with
          | .fault m => .fault m
          | .ok (.error e) => .ok (.error e)
          | .ok (.ok y) => .ok (.ok (x, y))

/-- `async fn increment(n: u64) -> u64 { n + 1 }` (src/main.rs:9-11). -/
def increment (n : Nat) : Fut Nat :=
  .lazyBody (fun _ => .ok ((n + 1) % U64))

/-- `fn increment_desugared(n: u64) -> impl Future<Output = u64> { ready(n + 1) }`
(src/main.rs:14-16). -/
def increment_desugared (n : Nat) : Fut Nat :=
  .ready ((n + 1) % U64)

/-- `async fn panic_buyer() { panic!("I need more toilet paper!"); }`
(src/main.rs:19-21).  Constructing this value performs no work; only
driving it raises the fault. -/
def panic_buyer : Fut Unit :=
  .lazyBody (fun _ => .fault "I need more toilet paper!")

/-- `async fn activate_panic_buyer() { panic_buyer().await; }`
(src/main.rs:26-28). -/
def activate_panic_buyer : Fut Unit :=
  .awaitThen panic_buyer (fun _ => .ready ())

/-- `async fn try_plus(x: u8, y: u8) -> Result<u8, ()> { x.checked_add(y).ok_or(()) }`
(src/main.rs:30-32): `checked_add` yields `None` exactly when `x + y`
overflows `u8` (exceeds 255). -/
def try_plus (x y : Nat) : Fut (Except Unit Nat) :=
  .lazyBody (fun _ =>
    .ok (if x + y ≤ 255 then Except.ok (x + y) else Except.error ()))

/-- `increment(4).map(|n| n * n)` (src/main.rs:55). -/
def increment_and_square : Fut Nat :=
  .mapF (increment 4) (fun n => (n * n) % U64)

/-- The `select!` expression of src/main.rs:77-80:
`select![a = increment(3).fuse() => a, b = try_plus(1, 1).fuse() => b.unwrap() as u64]`.
`fuse()` does not change the first poll of a fresh future.  The `select!`
macro of the `futures` crate polls its branches in a pseudo-random order on
each pass (only `select_biased!` polls in listed order); since both
branches here are ready on their first poll, the branch polled first wins.
The parameter `pollBFirst` records that random choice: `false` polls the
`a` branch first, `true` polls the `b` branch first.  The `b` handler is
`b.unwrap() as u64`: `unwrap` on an `Err` value panics. -/
def select_expr (pollBFirst : Bool) : Outcome Nat :=
  if pollBFirst then
    Outcome.bind (blockOn (try_plus 1 1)) (fun b =>
      match b with
      | .ok v => .ok v
      | .error _ => .fault "called Result::unwrap() on an Err value")
  else
    Outcome.bind (blockOn (increment 3)) (fun a => .ok a)

/-- `assert_eq!(expected, got)`: panics when the two sides differ. -/
def assertEq {α : Type} [DecidableEq α] (expected got : α) : Outcome Unit :=
  if expected = got then .ok () else .fault "assertion failed"

/-- `assert!(b)`: panics when `b` is false. -/
def assertTrue (b : Bool) : Outcome Unit :=
  if b then .ok () else .fault "assertion failed"

/-- `Result::is_err`. -/
def Except.isErr {ε α : Type} : Except ε α → Bool
  | .error _ => true
  | .ok _ => false

instance {ε α : Type} [DecidableEq ε] [DecidableEq α] :
    DecidableEq (Except ε α) := fun a b =>
  match a, b with
  | .ok x, .ok y =>
      if h : x = y then .isTrue (by rw [h]) else
        .isFalse (fun hc => h (Except.ok.inj hc))
  | .ok _, .error _ => .isFalse (fun hc => Except.noConfusion hc)
  | .error _, .ok _ => .isFalse (fun hc => Except.noConfusion hc)
  | .error e, .error f =>
      if h : e = f then .isTrue (by rw [h]) else
        .isFalse (fun hc => h (Except.error.inj hc))

/-- `fn main()` (src/main.rs:37-83), as the sequence of computations it
drives.  The construction `let _result = panic_buyer();` at line 44 builds
the future but never drives it.  `pollBFirst` is the pseudo-random branch
order chosen by the final `select!`. -/
def rustMain (pollBFirst : Bool) : Outcome Unit := do
  let result ← blockOn (increment 4)
  let result2 ← blockOn (increment_desugared 4)
  assertEq result result2
  let _result := panic_buyer
  let result3 ← blockOn increment_and_square
  assertEq 25 result3
  let r45 ← blockOn (.joinF (increment 3) (increment_desugared 1))
  assertEq (4, 2) r45
  let result6 ← blockOn (.tryJoinF (try_plus 1 1) (try_plus 200 200))
  assertTrue result6.isErr
  let _result7 ← select_expr pollBFirst
  pure ()

/-- `leaf_task_producing(n)` of the specification: an immediately ready
future carrying `n`, mapped through `v -> v + 1` (u64 arithmetic). -/
def map_leaf_plus_one (n : Nat) : Fut Nat :=
  .mapF (.ready n) (fun v => (v + 1) % U64)

/-- Claim C1, counterexample: driving `increment(4).map(|n| n * n)` does not
yield 16 — it yields 25, since `increment(4)` produces 5 and `5 * 5 = 25`
(the code itself asserts 25 at src/main.rs:57). -/
theorem c1_counterexample :
    blockOn increment_and_square ≠ Outcome.ok 16 ∧
    blockOn increment_and_square = Outcome.ok 25 := by
  exact ⟨by decide, by decide⟩

/-- Claim C1, amended: driving the map-composed task that squares the value
of `increment(4)` yields 25 (the leaf produces 5, and the code asserts 25). -/
theorem c1_map_square_value : blockOn increment_and_square = Outcome.ok 25 := by
  decide

/-- Claim C2, counterexample: `select!` polls its branches in a
pseudo-random order, so when the second branch (`try_plus(1, 1)`, handled by
`b.unwrap() as u64`) happens to be polled first, the result is 2, not 4 —
the result is not deterministically the first branch's outcome. -/
theorem c2_counterexample :
    select_expr true = Outcome.ok 2 ∧
    (Outcome.ok 2 : Outcome Nat) ≠ Outcome.ok 4 := by
  exact ⟨by decide, by decide⟩

/-- Claim C2, amended: with both branches ready in the same driver step, the
`select!` expression returns the outcome of whichever branch is polled
first — 4 when the `increment(3)` branch is polled first, 2 when the
`try_plus(1, 1)` branch is polled first; the poll order is pseudo-random
(only `select_biased!` guarantees the lowest-index branch). -/
theorem c2_select_poll_order :
    select_expr false = Outcome.ok 4 ∧ select_expr true = Outcome.ok 2 := by
  exact ⟨by decide, by decide⟩

/-- Claim C3, counterexample: at `n = u64::MAX = 2 ^ 64 - 1` the addition
`n + 1` overflows, so driving `increment(n)` does not return the
mathematical `n + 1 = 2 ^ 64` (the wrap produces 0; a debug build would
instead panic — either way not `n + 1`). -/
theorem c3_counterexample :
    blockOn (increment (2 ^ 64 - 1)) = Outcome.ok 0 ∧
    (Outcome.ok 0 : Outcome Nat) ≠ Outcome.ok (2 ^ 64) := by
  exact ⟨by decide, by decide⟩

/-- Claim C3, amended: for every `n` whose successor fits in `u64`
(`n + 1 < 2 ^ 64`), driving `increment(n)` via `block_on` returns `n + 1`,
and this equals driving the map-composed task applying `v -> v + 1` to a
leaf producing `n`. -/
theorem c3_increment_ok (n : Nat) (h : n + 1 < U64) :
    blockOn (increment n) = Outcome.ok (n + 1) ∧
    blockOn (increment n) = blockOn (map_leaf_plus_one n) := by
  refine ⟨?_, rfl⟩
  simp [blockOn, increment, Nat.mod_eq_of_lt h]

/-- Claim C3, witness at `n = 3` (the value used by `test_increment`). -/
theorem c3_witness :
    3 + 1 < U64 ∧ blockOn (increment 3) = Outcome.ok 4 :=
  ⟨by decide, (c3_increment_ok 3 (by decide)).1⟩

/-- Claim C4: `try_join!` over `try_plus(1, 1)` and `try_plus(200, 200)`
returns the typed failure (the `u8` overflow error), in either order of the
two children. -/
theorem c4_try_join_err :
    blockOn (Fut.tryJoinF (try_plus 1 1) (try_plus 200 200)) =
      Outcome.ok (Except.error ()) ∧
    blockOn (Fut.tryJoinF (try_plus 200 200) (try_plus 1 1)) =
      Outcome.ok (Except.error ()) := by
  exact ⟨by decide, by decide⟩

/-- Claim C5: `try_join!` over the two succeeding children `try_plus(1, 1)`
and `try_plus(2, 2)` returns the values `(2, 4)` in input order. -/
theorem c5_try_join_ok :
    blockOn (Fut.tryJoinF (try_plus 1 1) (try_plus 2 2)) =
      Outcome.ok (Except.ok (2, 4)) := by
  decide

/-- Claim C6: `join!` over `increment(3)` and `increment_desugared(1)`
yields exactly the ordered pair `(4, 2)` (asserted at src/main.rs:64). -/
theorem c6_join_pair :
    blockOn (Fut.joinF (increment 3) (increment_desugared 1)) =
      Outcome.ok (4, 2) := by
  decide

/-- Claim C7: for all `u8` inputs `x` and `y`, driving `try_plus(x, y)`
returns the typed failure `Err(())` exactly when `x + y` overflows `u8`
(`x + y > 255`), and returns `Ok(x + y)` otherwise; the error is a typed
`Except.error`, never a fault and never dropped. -/
theorem c7_try_plus_spec (x y : Nat) (hx : x ≤ 255) (hy : y ≤ 255) :
    (blockOn (try_plus x y) = Outcome.ok (Except.error ()) ↔ 255 < x + y) ∧
    (x + y ≤ 255 → blockOn (try_plus x y) = Outcome.ok (Except.ok (x + y))) := by
  constructor
  · by_cases h : x + y ≤ 255
    · simp [blockOn, try_plus, h]
    · simp [blockOn, try_plus, h]
      omega
  · intro h
    simp [blockOn, try_plus, h]

/-- Claim C7, witness: at `x = y = 200` (both valid `u8` values) the sum 400
overflows and the typed failure is returned. -/
theorem c7_try_plus_witness :
    (200 ≤ 255 ∧ 200 ≤ 255) ∧
    blockOn (try_plus 200 200) = Outcome.ok (Except.error ()) :=
  ⟨⟨by decide, by decide⟩,
    (c7_try_plus_spec 200 200 (by decide) (by decide)).1.mpr (by decide)⟩

/-- Claim C8: driving `panic_buyer` would raise the unrecoverable fault, yet
`main` — which constructs it at src/main.rs:44 (`let _result = panic_buyer();`)
and never drives it — completes without any fault, under either poll order
of the final `select!`: construction performs no work. -/
theorem c8_laziness :
    blockOn panic_buyer = Outcome.fault "I need more toilet paper!" ∧
    rustMain false = Outcome.ok () ∧ rustMain true = Outcome.ok () := by
  exact ⟨by decide, by decide, by decide⟩

/-- Claim C9: driving `activate_panic_buyer` through the driver propagates
the panic out of `block_on` as an unrecoverable fault terminating the
calling context; the outcome is `fault`, not any `ok` value (its type,
`Outcome Unit`, has no typed-error channel to convert into). -/
theorem c9_fault_propagates :
    blockOn activate_panic_buyer = Outcome.fault "I need more toilet paper!" := by
  decide

/-- Claim C10: for every input `n`, driving `increment(n)` and driving
`increment_desugared(n)` produce equal results — the async-sugar form and
the explicit `ready(n + 1)` future are observationally equivalent. -/
theorem c10_sugar_equiv (n : Nat) :
    blockOn (increment n) = blockOn (increment_desugared n) := rfl
